/-
Verification of the es-membrane distribution bundle (docs/dist/Membrane.mjs).

The bundle is a single rollup of the library's core modules.  It combines the
refactored ProxyCylinder class (fields and methods: originGraph,
proxyDataByGraph, setMetadata, removeGraph, revokeAll, ...) with
ObjectGraphHandler / Membrane code that still addresses the pre-refactor
ProxyMapping API (mapping.originField, mapping.set, mapping.getValue,
mapping.remove, mapping.revoke, handler.graphName).  Wherever the calling code
reads a property that the refactored class does not define, JavaScript yields
undefined (for data) or throws a TypeError (for a method call); the embedding
models those outcomes explicitly.

Modelling conventions:
* Machine values are the inductive JSValue below; object identity is an id.
* JavaScript doubles are modelled by JSNumber: NaN, the two infinities,
  integral finite doubles (carrying the integer), and non-integral finite
  doubles (carrying only their sign, which is all the verified code inspects).
* Thrown exceptions are modelled with Except JSError; JSError.error is a
  `throw new Error(msg)`, JSError.typeError a TypeError raised by the runtime
  (missing method, call of undefined).  Error messages that the source builds
  by string interpolation are modelled by their fixed prefix.
* Maps keyed by graph names or JS values are association lists; a lookup reads
  the first matching entry, an update replaces it in place, matching the
  behaviour of the JS Map/WeakMap objects used by the source.
-/
import Mathlib

/-- JSNumber models an ECMAScript double at the precision the verified code
inspects: NaN, the infinities, integral finite values, and non-integral
finite values (only their sign is ever consulted). -/
inductive JSNumber where
  | nan
  | posInf
  | negInf
  | intVal (n : Int)
  | nonIntFinite (neg : Bool)
deriving DecidableEq, Repr

/-- JSValue models an ECMAScript value.  Objects and functions are identified
by a numeric id; id 0 is reserved for the module-level object
NOT_YET_DETERMINED and id 0 of fn for the module-level function returnFalse. -/
inductive JSValue where
  | undefined
  | null
  | bool (b : Bool)
  | num (n : JSNumber)
  | str (s : String)
  | sym (id : Nat)
  | obj (id : Nat)
  | fn (id : Nat)
deriving DecidableEq, Repr

/-- Result of the source's valueType helper (lines 207-214):
"primitive" | "object" | "function". -/
inductive VType where
  | primitive
  | object
  | function
deriving DecidableEq, Repr

/-- valueType (source lines 207-214): null is "primitive"; a value whose
typeof is neither "function" nor "object" is "primitive"; otherwise the
typeof string ("object" or "function"). -/
def valueType : JSValue → VType
  | JSValue.obj _ => VType.object
  | JSValue.fn _ => VType.function
  | _ => VType.primitive

/-- ECMAScript ToBoolean on a JSValue (used by the source's truthiness
tests such as `if (metadata.proxy)`).  A non-integral finite double is
never zero, hence truthy. -/
def truthy : JSValue → Bool
  | JSValue.undefined => false
  | JSValue.null => false
  | JSValue.bool b => b
  | JSValue.num JSNumber.nan => false
  | JSValue.num (JSNumber.intVal n) => decide (n ≠ 0)
  | JSValue.num _ => true
  | JSValue.str s => decide (s ≠ "")
  | _ => true

/-- Graph names as the refactored ProxyCylinder stores them (string or
symbol), together with undef: the undefined value that the pre-refactor
calling code passes when it reads the nonexistent originField / graphName
properties. -/
inductive GraphKey where
  | str (s : String)
  | sym (id : Nat)
  | undef
deriving DecidableEq, Repr

/-- Property keys of ordinary JS objects (strings or symbols). -/
inductive PropKey where
  | str (s : String)
  | sym (id : Nat)
deriving DecidableEq, Repr

/-- A thrown JS exception: either an Error constructed by the source with the
given message, or a TypeError produced by the runtime (calling a missing
method, reading a property of undefined). -/
inductive JSError where
  | error (msg : String)
  | typeError (msg : String)
deriving DecidableEq, Repr

/-- EM is the exception monad for the embedding. -/
abbrev EM (α : Type) := Except JSError α

/-- Test whether a computation threw. -/
def emIsError {α : Type} : EM α → Bool
  | Except.error _ => true
  | Except.ok _ => false

/-- First-match lookup in an association list (JS Map.get / property read). -/
def assocFind {κ α : Type} [DecidableEq κ] (l : List (κ × α)) (k : κ) : Option α :=
  match l with
  | [] => none
  | (k', v) :: rest => if k' = k then some v else assocFind rest k

/-- Replace the value at the first matching key, or append (JS Map.set). -/
def assocSet {κ α : Type} [DecidableEq κ] (l : List (κ × α)) (k : κ) (v : α) : List (κ × α) :=
  match l with
  | [] => [(k, v)]
  | (k', v') :: rest => if k' = k then (k, v) :: rest else (k', v') :: assocSet rest k v

/-- GraphMetadata (source lines 248-260): the per-graph record of a
ProxyCylinder.  Fields that the JS object may simply lack are Options; a
`none` field reads as undefined (getD JSValue.undefined) and is absent for
the `in` operator.  Fields of the JS record that none of the modelled
operations touch (localDescriptors, deletedLocals, ownKeysFilter,
cachedOwnKeys) are omitted; the modelled operations neither read nor write
them. -/
structure GraphMetadata where
  value? : Option JSValue := none
  proxy? : Option JSValue := none
  revoke? : Option JSValue := none
  shadowTarget? : Option JSValue := none
  override? : Option JSValue := none
  truncateArgList? : Option JSValue := none
deriving DecidableEq, Repr

/-- An entry of proxyDataByGraph: live metadata or the DeadProxyKey symbol. -/
inductive MetaEntry where
  | dead
  | live (md : GraphMetadata)
deriving DecidableEq, Repr

/-- ProxyCylinder (source lines 265-305): one real value's record across all
graphs.  localFlags models the Set of "flagName:graphName" strings (the
source's null set and the empty set are observationally identical through
getLocalFlag/setLocalFlag); localFlagsSymbols models the Map from symbol
graph names to flag objects. -/
structure ProxyCylinder where
  originGraph : GraphKey
  proxyDataByGraph : List (GraphKey × MetaEntry) := []
  originalValueSet : Bool := false
  localFlags : List String := []
  localFlagsSymbols : List (Nat × List (String × Bool)) := []
deriving DecidableEq, Repr

/-- ProxyCylinder constructor (lines 269-305): stores the argument as
originGraph without validation (the broken call sites pass undefined), with
an empty graph map and originalValueSet false. -/
def ProxyCylinder.new (originGraph : GraphKey) : ProxyCylinder :=
  { originGraph := originGraph }

/-- reading cylinder.originField: the refactored class defines originGraph,
not originField, so this property access yields undefined for every
cylinder.  The pre-refactor handler and membrane code reads it throughout. -/
def ProxyCylinder.originFieldProp (_c : ProxyCylinder) : GraphKey :=
  GraphKey.undef

/-- getMetadata (lines 324-339): type-check the graph name (undefined is
neither a string nor a symbol), then fail on unknown or dead graphs.
The source interpolates the graph name into the message; the model keeps the
fixed prefix. -/
def ProxyCylinder.getMetadata (c : ProxyCylinder) (g : GraphKey) : EM GraphMetadata :=
  match g with
  | GraphKey.undef => Except.error (JSError.error "graphName is neither a symbol nor a string!")
  | _ =>
    match assocFind c.proxyDataByGraph g with
    | none => Except.error (JSError.error "unknown graph")
    | some MetaEntry.dead => Except.error (JSError.error "dead object graph")
    | some (MetaEntry.live md) => Except.ok md

/-- hasGraph (lines 375-377): getGraphNames().includes(graphName); dead
entries keep their key in the Map, so they count. -/
def ProxyCylinder.hasGraph (c : ProxyCylinder) (g : GraphKey) : Bool :=
  (c.proxyDataByGraph.map Prod.fst).contains g

/-- getProxy (lines 387-390): the original value on the origin graph, the
proxy elsewhere; an absent slot reads as undefined. -/
def ProxyCylinder.getProxy (c : ProxyCylinder) (g : GraphKey) : EM JSValue :=
  match c.getMetadata g with
  | Except.error e => Except.error e
  | Except.ok md =>
    Except.ok (if g = c.originGraph then md.value?.getD JSValue.undefined
               else md.proxy?.getD JSValue.undefined)

/-- getShadowTarget (lines 399-401): return getMetadata(graphName)
.shadowTarget; an absent slot reads as undefined. -/
def ProxyCylinder.getShadowTarget (c : ProxyCylinder) (g : GraphKey) : EM JSValue :=
  match c.getMetadata g with
  | Except.error e => Except.error e
  | Except.ok md => Except.ok (md.shadowTarget?.getD JSValue.undefined)

/-- isShadowTarget (lines 411-416): some live entry stores this exact value
as its shadowTarget (=== comparison on the slot, which reads undefined when
absent). -/
def ProxyCylinder.isShadowTarget (c : ProxyCylinder) (x : JSValue) : Bool :=
  c.proxyDataByGraph.any (fun p =>
    match p.2 with
    | MetaEntry.dead => false
    | MetaEntry.live md => (md.shadowTarget?.getD JSValue.undefined) == x)

/-- getLocalFlag (lines 588-604): first `getMetadata(graphName)` to ensure
the graph is alive (this throws for an unknown, dead or undefined graph
name), then look the flag up in the string Set or the symbol Map. -/
def ProxyCylinder.getLocalFlag (c : ProxyCylinder) (g : GraphKey) (flagName : String) : EM Bool :=
  match c.getMetadata g with
  | Except.error e => Except.error e
  | Except.ok _ =>
    match g with
    | GraphKey.str s => Except.ok (c.localFlags.contains (flagName ++ ":" ++ s))
    | GraphKey.sym i =>
      match assocFind c.localFlagsSymbols i with
      | none => Except.ok false
      | some obj =>
        match assocFind obj flagName with
        | some b => Except.ok b
        | none => Except.ok false
    | GraphKey.undef => Except.ok false

/-- getTruncateArgList (lines 842-848): the stored slot when its typeof is
not "undefined", else false. -/
def ProxyCylinder.getTruncateArgList (c : ProxyCylinder) (g : GraphKey) : EM JSValue :=
  match c.getMetadata g with
  | Except.error e => Except.error e
  | Except.ok md =>
    match md.truncateArgList? with
    | some v => if v = JSValue.undefined then Except.ok (JSValue.bool false) else Except.ok v
    | none => Except.ok (JSValue.bool false)

/-- parseInt(String(n)) === n for a JSNumber.  For an integral finite double
the two sides agree exactly when |n| is below 1e21 (from that magnitude on,
Number.prototype.toString switches to exponential notation and parseInt stops
at the mantissa).  NaN never equals itself; parseInt of "Infinity" or
"-Infinity" is NaN; for a non-integral finite double, parseInt of its string
form is an integer or NaN and therefore differs. -/
def parseIntEqSelf : JSNumber → Bool
  | JSNumber.intVal n => decide (n.natAbs < 10 ^ 21)
  | _ => false

/-- JS comparison n >= 0 on a JSNumber (false for NaN). -/
def numGE0 : JSNumber → Bool
  | JSNumber.nan => false
  | JSNumber.posInf => true
  | JSNumber.negInf => false
  | JSNumber.intVal n => decide (0 ≤ n)
  | JSNumber.nonIntFinite neg => !neg

/-- The global isFinite on a JSNumber. -/
def jsIsFinite : JSNumber → Bool
  | JSNumber.intVal _ => true
  | JSNumber.nonIntFinite _ => true
  | _ => false

/-- Replace the (live) metadata stored at graph g.  Models the in-place
mutation of the metadata object that getMetadata returned by reference. -/
def ProxyCylinder.updateMetadata (c : ProxyCylinder) (g : GraphKey) (md : GraphMetadata) : ProxyCylinder :=
  { c with proxyDataByGraph := assocSet c.proxyDataByGraph g (MetaEntry.live md) }

/-- setTruncateArgList (lines 857-863): after the aliveness check, store the
count when it is a number satisfying count >= 0, parseInt(count) === count
and isFinite(count); otherwise delete the slot. -/
def ProxyCylinder.setTruncateArgList (c : ProxyCylinder) (g : GraphKey) (count : JSValue) : EM ProxyCylinder :=
  match c.getMetadata g with
  | Except.error e => Except.error e
  | Except.ok md =>
    let isValidCount :=
      match count with
      | JSValue.num n => numGE0 n && parseIntEqSelf n && jsIsFinite n
      | _ => false
    let md2 := if isValidCount then { md with truncateArgList? := some count }
               else { md with truncateArgList? := none }
    Except.ok (c.updateMetadata g md2)

/-- An entry of the membrane's weak map: the DeadProxyKey symbol or a
ProxyCylinder.  The JS map stores cylinder references; the model stores the
cylinder value as of insertion (the modelled flows never mutate a cylinder
after it reaches the map). -/
inductive MapVal where
  | dead
  | cyl (c : ProxyCylinder)
deriving DecidableEq, Repr

/-- The membrane's weak map, keyed by proxies, shadow targets and original
values (always non-primitive in the source, since WeakMap keys must be
objects). -/
abbrev MMap := List (JSValue × MapVal)

/-- WeakMap.get on the membrane map. -/
def mapGet (m : MMap) (key : JSValue) : Option MapVal :=
  assocFind m key

/-- WeakMap.has on the membrane map. -/
def mapHas (m : MMap) (key : JSValue) : Bool :=
  (assocFind m key).isSome

/-- WeakMapOfProxyCylinders.set (lines 3681-3695) for a live cylinder value:
a dead key throws, a key already holding a different cylinder throws (the
instanceof-ProxyMapping guard is skipped because ProxyMapping is undeclared
and `typeof ProxyMapping` is "undefined"), otherwise store.  The === check on
the current value is a reference comparison; modelled structurally (the
modelled flows only reach it with an empty slot). -/
def wmSet (m : MMap) (key : JSValue) (c : ProxyCylinder) : EM MMap :=
  match mapGet m key with
  | some MapVal.dead => Except.error (JSError.error "WeakMapOfProxyCylinders says this key is dead")
  | some (MapVal.cyl c0) =>
    if c0 = c then Except.ok (assocSet m key (MapVal.cyl c))
    else Except.error (JSError.error "WeakMapOfProxyCylinders already has a value for this key")
  | none => Except.ok (assocSet m key (MapVal.cyl c))

/-- setMetadataInternal (lines 349-355) for a live metadata argument: the
`!metadata` test passes (metadata is an object), a dead existing entry
throws, otherwise store. -/
def ProxyCylinder.setMetadataInternal (c : ProxyCylinder) (g : GraphKey) (md : GraphMetadata) : EM ProxyCylinder :=
  if assocFind c.proxyDataByGraph g = some MetaEntry.dead then
    Except.error (JSError.error "dead object graph")
  else
    Except.ok { c with proxyDataByGraph := assocSet c.proxyDataByGraph g (MetaEntry.live md) }

/-- The foreign-graph branch of setMetadata (lines 447-458 shape checks,
the setMetadataInternal store, and the membrane-map update of lines
472-476). -/
def ProxyCylinder.setMetadataForeignBranch (c : ProxyCylinder) (mMap : MMap) (graphName : GraphKey) (md : GraphMetadata) : EM (ProxyCylinder × MMap) :=
  if assocFind c.proxyDataByGraph c.originGraph = some MetaEntry.dead then
    Except.error (JSError.error "dead origin object graph")
  else if md.value?.isSome then
    Except.error (JSError.error "metadata must not include a value")
  else if !truthy (md.proxy?.getD JSValue.undefined) then
    Except.error (JSError.error "metadata must include a proxy")
  else if valueType (md.revoke?.getD JSValue.undefined) ≠ VType.function then
    Except.error (JSError.error "metadata must include a revoke method")
  else if !truthy (md.shadowTarget?.getD JSValue.undefined) then
    Except.error (JSError.error "metadata must include a shadow target")
  else
    match c.setMetadataInternal graphName md with
    | Except.error e => Except.error e
    | Except.ok c1 =>
      if valueType (md.proxy?.getD JSValue.undefined) ≠ VType.primitive then
        match wmSet mMap (md.proxy?.getD JSValue.undefined) c1 with
        | Except.error e => Except.error e
        | Except.ok m1 => Except.ok (c1, m1)
      else Except.ok (c1, mMap)

/-- The origin-graph branch of setMetadata (lines 459-468 shape checks, the
setMetadataInternal store, the originalValueSet flip of lines 477-479, and
the membrane-map update of lines 481-486). -/
def ProxyCylinder.setMetadataOriginBranch (c : ProxyCylinder) (mMap : MMap) (graphName : GraphKey) (md : GraphMetadata) : EM (ProxyCylinder × MMap) :=
  if md.value?.isNone then
    Except.error (JSError.error "metadata must include an original value")
  else if truthy (md.proxy?.getD JSValue.undefined) then
    Except.error (JSError.error "metadata must not include a proxy")
  else if truthy (md.revoke?.getD JSValue.undefined) then
    Except.error (JSError.error "metadata must not include a revoke method")
  else if truthy (md.shadowTarget?.getD JSValue.undefined) then
    Except.error (JSError.error "metadata must not include a shadow target")
  else
    match c.setMetadataInternal graphName md with
    | Except.error e => Except.error e
    | Except.ok c1 =>
      let c2 := if !c1.originalValueSet then { c1 with originalValueSet := true } else c1
      if !mapHas mMap (md.value?.getD JSValue.undefined)
         && valueType (md.value?.getD JSValue.undefined) ≠ VType.primitive then
        match wmSet mMap (md.value?.getD JSValue.undefined) c2 with
        | Except.error e => Except.error e
        | Except.ok m1 => Except.ok (c2, m1)
      else Except.ok (c2, mMap)

/-- setMetadata (lines 427-486).  The metadata argument is modelled as the
record itself, so the initial typeof-object test passes.  The checks appear
in source order: override flag, previously-defined graph, dead graph, graph
name type, originalValueSet, then the foreign or origin branch (`in` tests
are Option.isSome, the other shape tests are truthiness of the slot, which
reads undefined when absent). -/
def ProxyCylinder.setMetadata (c : ProxyCylinder) (mMap : MMap) (graphName : GraphKey) (md : GraphMetadata) : EM (ProxyCylinder × MMap) :=
  let override := match md.override? with
    | some (JSValue.bool b) => b
    | _ => false
  if !override && c.hasGraph graphName then
    Except.error (JSError.error "set called for previously defined graph")
  else if assocFind c.proxyDataByGraph graphName = some MetaEntry.dead then
    Except.error (JSError.error "dead object graph")
  else
    match graphName with
    | GraphKey.undef => Except.error (JSError.error "graphName is neither a symbol nor a string!")
    | _ =>
      let isForeignGraph := graphName ≠ c.originGraph
      if !c.originalValueSet && (override || isForeignGraph) then
        Except.error (JSError.error "original value has not been set")
      else if isForeignGraph then
        c.setMetadataForeignBranch mMap graphName md
      else
        c.setMetadataOriginBranch mMap graphName md

/-- The closure state behind the passThroughFilter accessor pair defined by
the ObjectGraphHandler constructor (lines 1118-1142) and, with identical
logic, by the ObjectGraph constructor (lines 3555-3583): the captured local
variable passThroughFilter, initialised to the module-level function
returnFalse. -/
structure PassThroughSlot where
  current : JSValue
deriving DecidableEq, Repr

/-- The module-level function returnFalse (lines 42-44); function id 0 is
reserved for it.  It is reachable by callers: a Membrane constructed without
a passThroughFilter option exposes it as its passThroughFilter property
(lines 3737-3739 and 3769). -/
def returnFalseFn : JSValue := JSValue.fn 0

/-- The initial slot: `var passThroughFilter = returnFalse;`. -/
def PassThroughSlot.init : PassThroughSlot := ⟨returnFalseFn⟩

/-- The passThroughFilter setter (lines 1127-1133 / 3568-3574): throw if the
captured variable no longer holds returnFalse, throw if the assigned value is
not a function, otherwise store it. -/
def setPassThroughFilter (s : PassThroughSlot) (val : JSValue) : EM PassThroughSlot :=
  if s.current ≠ returnFalseFn then
    Except.error (JSError.error "passThroughFilter has been defined once already!")
  else if valueType val ≠ VType.function then
    Except.error (JSError.error "passThroughFilter must be a function")
  else
    Except.ok ⟨val⟩

/-- The mayReplacePassThrough getter (lines 1138-1142 / 3579-3583):
passThroughFilter === returnFalse. -/
def mayReplacePassThrough (s : PassThroughSlot) : Bool :=
  s.current = returnFalseFn

/-- An entry of a handler's __revokeFunctions__ list (pushed by addRevocable,
line 2916-2920): either a ProxyCylinder (origin side of buildMapping, line
3924) or a revoke function wrapped by makeRevokeDeleteRefs (lines 216-226). -/
inductive RevocableEntry where
  | cylinderEntry (c : ProxyCylinder)
  | wrappedRevoke (id : Nat)
deriving DecidableEq, Repr

/-- An ObjectGraphHandler (constructor lines 1100-1169).  The class defines
membrane, fieldName, the passThroughFilter accessor, boundMethods, the
private listener and revocation lists, and __isDead__; it defines NO
graphName property.  The id models object identity. -/
structure ObjectGraphHandler where
  id : Nat
  fieldName : GraphKey
  isDead : Bool := false
  revokeFns : List RevocableEntry := []
  passThroughSlot : PassThroughSlot := PassThroughSlot.init
deriving DecidableEq, Repr

/-- reading handler.graphName on an ObjectGraphHandler: the class defines
fieldName, not graphName, so the access yields undefined.  The Membrane
reads handler[graphKey] with graphKey = "graphName" for every refactor
setting (lines 3857 and 4043: both branches of the ternary are the string
"graphName"), and ownsHandler and bindValuesByHandlers read handler.graphName
directly. -/
def ObjectGraphHandler.graphNameProp (_h : ObjectGraphHandler) : GraphKey :=
  GraphKey.undef

/-- The 13 trap names (allTraps, source lines 124-140). -/
def allTraps : List String :=
  ["getPrototypeOf", "setPrototypeOf", "isExtensible", "preventExtensions",
   "getOwnPropertyDescriptor", "defineProperty", "has", "get", "set",
   "deleteProperty", "ownKeys", "apply", "construct"]

/-- The module-level ShadowKeyMap (line 3): shadow object → real value. -/
abbrev ShadowKeyMapT := List (JSValue × JSValue)

/-- getRealTarget (lines 38-40): ShadowKeyMap.has(target) ?
ShadowKeyMap.get(target) : target. -/
def getRealTarget (skm : ShadowKeyMapT) (target : JSValue) : JSValue :=
  match assocFind skm target with
  | some v => v
  | none => target

/-- validateTrapAndShadowTarget (lines 2307-2321), the first statement of
every one of the 13 ObjectGraphHandler traps: resolve the real target, fetch
its cylinder from the membrane map (anything that is not a ProxyCylinder —
a missing entry or the DeadProxyKey symbol — throws), check the shadow
target, then the two disabled-trap lookups.  The second lookup passes
targetMap.originField, a property the refactored ProxyCylinder does not
define, so it calls getLocalFlag with undefined. -/
def ObjectGraphHandler.validateTrapAndShadowTarget (h : ObjectGraphHandler) (skm : ShadowKeyMapT) (mMap : MMap) (trapName : String) (shadowTarget : JSValue) : EM Unit :=
  let target := getRealTarget skm shadowTarget
  match mapGet mMap target with
  | some (MapVal.cyl c) =>
    if !(c.isShadowTarget shadowTarget) then
      Except.error (JSError.error "ObjectGraphHandler traps must be called with a shadow target!")
    else
      match c.getLocalFlag h.fieldName ("disableTrap(" ++ trapName ++ ")") with
      | Except.error e => Except.error e
      | Except.ok true =>
        Except.error (JSError.error ("The " ++ trapName ++ " trap is not executable."))
      | Except.ok false =>
        match c.getLocalFlag c.originFieldProp ("disableTrap(" ++ trapName ++ ")") with
        | Except.error e => Except.error e
        | Except.ok true =>
          Except.error (JSError.error ("The " ++ trapName ++ " trap is not executable."))
        | Except.ok false => Except.ok ()
  | _ => Except.error (JSError.error "No ProxyCylinder found for shadow target!")

/-- The loop body of revokeEverything (lines 2942-2949): a ProxyCylinder
entry is invoked as revocable.revoke(membrane), but the refactored class has
no revoke method (it was renamed revokeAll), so the call is a TypeError; a
function entry is a revoke wrapped by makeRevokeDeleteRefs, which after the
engine revoke calls mapping.remove(field) — also renamed (removeGraph) —
another TypeError.  Either way the first iteration throws. -/
def runRevocables : List RevocableEntry → EM Unit
  | [] => Except.ok ()
  | RevocableEntry.cylinderEntry _ :: _ =>
    Except.error (JSError.typeError "revocable.revoke is not a function")
  | RevocableEntry.wrappedRevoke _ :: _ =>
    Except.error (JSError.typeError "mapping.remove is not a function")

/-- revokeEverything (lines 2938-2950): throw when already dead, mark the
handler dead, then run every revocable.  In JS the dead flag is set before
the loop, so on a loop failure the handler is already dead; the model
returns no state on error, which only matters for states no theorem
consults. -/
def ObjectGraphHandler.revokeEverything (h : ObjectGraphHandler) : EM ObjectGraphHandler :=
  if h.isDead then Except.error (JSError.error "This membrane handler is dead!")
  else
    match runRevocables h.revokeFns with
    | Except.error e => Except.error e
    | Except.ok _ => Except.ok { h with isDead := true }

/-- The Membrane instance state (constructor lines 3736-3777): the refactor
tag, the handlersByFieldName registry (a plain object: property key →
handler, modelled by the handler's id), and the weak map.  The logger, the
listener lists and the pass-through filter of the membrane itself play no
part in the modelled flows. -/
structure Membrane where
  refactor : String := ""
  handlersByFieldName : List (PropKey × Nat) := []
  mapEntries : MMap := []
deriving DecidableEq, Repr

/-- ownsHandler (lines 3974-3982) for an ObjectGraphHandler argument: the
ObjectGraph branch does not apply and ChainHandlers is empty in the modelled
membrane (createChainHandler is never among the modelled flows);
the result is handlersByFieldName[handler.graphName] === handler, and
handler.graphName is undefined, which as a property key is the string
"undefined". -/
def Membrane.ownsHandler (m : Membrane) (h : ObjectGraphHandler) : Bool :=
  match assocFind m.handlersByFieldName (PropKey.str "undefined") with
  | some hid => hid = h.id
  | none => false

/-- The module-level NOT_YET_DETERMINED marker object (lines 228-233);
object id 0 is reserved for it. -/
def notYetDetermined : JSValue := JSValue.obj 0

/-- getMembraneProxy (lines 3831-3837): map.get(value); when the entry is
truthy and hasGraph(graph) holds, return [true, mapping.getProxy(graph)];
otherwise [false, NOT_YET_DETERMINED].  A DeadProxyKey entry is a truthy
symbol without a hasGraph method, so the call is a TypeError. -/
def Membrane.getMembraneProxy (m : Membrane) (graph : GraphKey) (value : JSValue) : EM (Bool × JSValue) :=
  match mapGet m.mapEntries value with
  | some (MapVal.cyl c) =>
    if c.hasGraph graph then
      match c.getProxy graph with
      | Except.error e => Except.error e
      | Except.ok p => Except.ok (true, p)
    else Except.ok (false, notYetDetermined)
  | some MapVal.dead => Except.error (JSError.typeError "mapping.hasGraph is not a function")
  | none => Except.ok (false, notYetDetermined)

/-- convertArgumentToProxy (lines 4030-4096), called without an options
argument as in every claim (options = empty object, so override is false and
the selfDestruct branch of lines 4032-4037 is skipped).  Steps: primitives
are returned as-is (4039-4041); graphKey is "graphName" for every refactor
value (4043); the target-graph lookup uses targetHandler.graphName =
undefined (4045-4050); then line 4052 tests
(!ownsHandler(origin) || !ownsHandler(target) ||
originHandler.graphName === targetHandler.graphName) — the third disjunct
compares undefined with undefined and is true for every pair of
ObjectGraphHandlers, so the throw is unconditional and lines 4057-4095
(pass-through filters and the two buildMapping calls) are unreachable for
every input. -/
def Membrane.convertArgumentToProxy (m : Membrane) (originHandler targetHandler : ObjectGraphHandler) (arg : JSValue) : EM (Membrane × JSValue) :=
  if valueType arg = VType.primitive then Except.ok (m, arg)
  else
    match m.getMembraneProxy targetHandler.graphNameProp arg with
    | Except.error e => Except.error e
    | Except.ok (found, rv) =>
      if found then Except.ok (m, rv)
      else
        Except.error (JSError.error "convertArgumentToProxy requires two different ObjectGraphHandlers in the Membrane instance")

/-- hasHandlerByField (lines 3934-3941): type-check the graph name, then
Reflect.ownKeys(handlersByFieldName).includes(graph). -/
def Membrane.hasHandlerByField (m : Membrane) (graph : JSValue) : EM Bool :=
  match graph with
  | JSValue.str s => Except.ok ((m.handlersByFieldName.map Prod.fst).contains (PropKey.str s))
  | JSValue.sym i => Except.ok ((m.handlersByFieldName.map Prod.fst).contains (PropKey.sym i))
  | _ => Except.error (JSError.error "graph must be a string or a symbol!")

/-- Options argument of getHandlerByName. -/
inductive GHOptions where
  | missing
  | boolOpt (b : Bool)
  | objOpt (mustCreate : Bool)
deriving DecidableEq, Repr

/-- Property lookup on handlersByFieldName for the final
`return this.handlersByFieldName[graph]` of getHandlerByName.  Only string
and symbol keys can be registered there, so other argument values (which JS
would coerce to strings) find nothing in the modelled states. -/
def Membrane.handlerLookup (m : Membrane) (graph : JSValue) : Option Nat :=
  match graph with
  | JSValue.str s => assocFind m.handlersByFieldName (PropKey.str s)
  | JSValue.sym i => assocFind m.handlersByFieldName (PropKey.sym i)
  | _ => none

/-- getHandlerByName (lines 3952-3967).  A boolean options argument throws
"fix me!".  With mustCreate and an unregistered graph the function enters
the creation block, whose first statement `let graph = null;` shadows the
parameter, so both constructors — new ObjectGraph(this, graph) when refactor
is "0.10" (type check at lines 3550-3552), new ObjectGraphHandler(this,
graph) otherwise (type check at lines 1102-1104) — receive null and throw
the same "field must be a string or a symbol!" error; the registration line
3964 is never reached.  Without creation the function returns
handlersByFieldName[graph] (undefined when absent, modelled as none). -/
def Membrane.getHandlerByName (m : Membrane) (graph : JSValue) (options : GHOptions) : EM (Membrane × Option Nat) :=
  match options with
  | GHOptions.boolOpt _ => Except.error (JSError.error "fix me!")
  | _ =>
    let mustCreate := match options with
      | GHOptions.objOpt b => b
      | _ => false
    if mustCreate then
      match m.hasHandlerByField graph with
      | Except.error e => Except.error e
      | Except.ok true => Except.ok (m, m.handlerLookup graph)
      | Except.ok false =>
        Except.error (JSError.error "field must be a string or a symbol!")
    else Except.ok (m, m.handlerLookup graph)

/-- Extended count used by truncateArguments: a finite slice length or
Infinity. -/
inductive SliceCount where
  | fin (n : Int)
  | inf
deriving DecidableEq, Repr

/-- Math.min of two slice counts. -/
def sliceMin : SliceCount → SliceCount → SliceCount
  | SliceCount.inf, b => b
  | a, SliceCount.inf => a
  | SliceCount.fin a, SliceCount.fin b => SliceCount.fin (min a b)

/-- argumentsList.slice(0, count): a negative count yields the empty list,
Infinity the whole list. -/
def sliceArgs (args : List JSValue) (count : SliceCount) : List JSValue :=
  match count with
  | SliceCount.inf => args
  | SliceCount.fin n => args.take n.toNat

/-- Coerce one stored truncation value per lines 2890-2896 / 2899-2905:
a boolean becomes target.length (true) or Infinity (false); anything else
must pass assert(Number.isInteger(c) && c >= 0). -/
def coerceTruncateCount (v : JSValue) (targetLength : Nat) : EM SliceCount :=
  match v with
  | JSValue.bool b => Except.ok (if b then SliceCount.fin (Int.ofNat targetLength) else SliceCount.inf)
  | JSValue.num (JSNumber.intVal n) =>
    if 0 ≤ n then Except.ok (SliceCount.fin n)
    else Except.error (JSError.error "Assertion failure: must call slice with a non-negative integer length")
  | _ => Except.error (JSError.error "Assertion failure: must call slice with a non-negative integer length")

/-- truncateArguments (lines 2885-2909).  The Array.isArray assertion holds
(argument lists are arrays).  map.get(target) must produce a cylinder; a
missing entry or a DeadProxyKey symbol has no getTruncateArgList method.
The first lookup passes map.originField — undefined on the refactored
ProxyCylinder — so getTruncateArgList throws its graph-name type check
before any truncation can happen.  targetLength models target.length. -/
def ObjectGraphHandler.truncateArguments (h : ObjectGraphHandler) (mMap : MMap) (target : JSValue) (targetLength : Nat) (argumentsList : List JSValue) : EM (List JSValue) :=
  match mapGet mMap target with
  | some (MapVal.cyl c) =>
    match c.getTruncateArgList c.originFieldProp with
    | Except.error e => Except.error e
    | Except.ok originCountV =>
      match coerceTruncateCount originCountV targetLength with
      | Except.error e => Except.error e
      | Except.ok originCount =>
        match c.getTruncateArgList h.fieldName with
        | Except.error e => Except.error e
        | Except.ok targetCountV =>
          match coerceTruncateCount targetCountV targetLength with
          | Except.error e => Except.error e
          | Except.ok targetCount =>
            Except.ok (sliceArgs argumentsList (sliceMin originCount targetCount))
  | _ => Except.error (JSError.typeError "map.getTruncateArgList is not a function")

/-- The bag record built by the local function bag of bindValuesByHandlers
(lines 4116-4135).  A primitive value's bag has no proxyMap property
(reads as undefined, modelled none). -/
structure PropBag where
  handlerId : Nat
  value : JSValue
  vtype : VType
  proxyMap : Option ProxyCylinder
deriving DecidableEq, Repr

/-- bag(h, v) (lines 4116-4135): ownsHandler check, then for a non-primitive
value fetch its cylinder and require
(!proxyMap || (proxyMap.hasGraph(graph) && proxyMap.getProxy(graph) === v))
where graph = h.graphName = undefined.  A DeadProxyKey map entry is truthy
but has no hasGraph method (TypeError). -/
def Membrane.bagForBind (m : Membrane) (h : ObjectGraphHandler) (v : JSValue) : EM PropBag :=
  if !(m.ownsHandler h) then
    Except.error (JSError.error "bindValuesByHandlers requires two ObjectGraphHandlers from different graphs")
  else if valueType v = VType.primitive then
    Except.ok ⟨h.id, v, valueType v, none⟩
  else
    match mapGet m.mapEntries v with
    | none => Except.ok ⟨h.id, v, valueType v, none⟩
    | some MapVal.dead => Except.error (JSError.typeError "rv.proxyMap.hasGraph is not a function")
    | some (MapVal.cyl c) =>
      if c.hasGraph GraphKey.undef then
        match c.getProxy GraphKey.undef with
        | Except.error e => Except.error e
        | Except.ok p =>
          if p = v then Except.ok ⟨h.id, v, valueType v, some c⟩
          else Except.error (JSError.error "Value argument does not belong to proposed ObjectGraphHandler")
      else Except.error (JSError.error "Value argument does not belong to proposed ObjectGraphHandler")

/-- checkField(bag) (lines 4137-4146), returning bag.maySet: when the chosen
proxyMap already has the bag's graph (bag.handler.graphName = undefined) the
stored proxy must be the bag's value and maySet is false; otherwise maySet
is true. -/
def Membrane.checkFieldForBind (proxyMap : ProxyCylinder) (bag : PropBag) : EM Bool :=
  if proxyMap.hasGraph GraphKey.undef then
    match proxyMap.getProxy GraphKey.undef with
    | Except.error e => Except.error e
    | Except.ok check =>
      if check = bag.value then Except.ok false
      else Except.error (JSError.error "Value argument does not belong to proposed object graph")
  else Except.ok true

/-- applyBag(bag) (lines 4148-4157): a no-op without maySet; with maySet it
builds parts (proxyMap.originField === bag.handler.graphName compares
undefined with undefined, so parts.value = bag.value) and then calls
proxyMap.set — a method the refactored ProxyCylinder does not define
(renamed setMetadata), hence a TypeError. -/
def Membrane.applyBagForBind (_proxyMap : ProxyCylinder) (_bag : PropBag) (maySet : Bool) : EM Unit :=
  if !maySet then Except.ok ()
  else Except.error (JSError.typeError "proxyMap.set is not a function")

/-- The postcondition block for one bag (lines 4204-4212 and 4214-4222):
getMembraneProxy under the handler's graphName (undefined), then the two
asserts. -/
def Membrane.bindPostcondition (m : Membrane) (bagValue otherValue : JSValue) : EM Unit :=
  match m.getMembraneProxy GraphKey.undef bagValue with
  | Except.error e => Except.error e
  | Except.ok (found, check) =>
    if !found then Except.error (JSError.error "Assertion failure: value0 mapping not found?")
    else if check ≠ bagValue then
      Except.error (JSError.error "Assertion failure: value0 not found in handler0 graph name?")
    else
      match m.getMembraneProxy GraphKey.undef bagValue with
      | Except.error e => Except.error e
      | Except.ok (found2, check2) =>
        if !found2 then Except.error (JSError.error "Assertion failure: value0 mapping not found?")
        else if check2 ≠ otherValue then
          Except.error (JSError.error "Assertion failure: value0 not found in handler0 graph name?")
        else Except.ok ()

/-- The tail of bindValuesByHandlers from the checkField calls onward (lines
4189-4222), with the resolved proxyMap: run checkField on both bags; line
4192 compares the two handlers' graphName properties, which are both
undefined, so the branch always runs: differing values throw, equal values
force maySet false on both bags; applyBag twice; then the postcondition
asserts. -/
def Membrane.bindRest (m : Membrane) (propBag0 propBag1 : PropBag) (proxyMap : ProxyCylinder) : EM Membrane :=
  match Membrane.checkFieldForBind proxyMap propBag0 with
  | Except.error e => Except.error e
  | Except.ok maySet0 =>
    match Membrane.checkFieldForBind proxyMap propBag1 with
    | Except.error e => Except.error e
    | Except.ok maySet1 =>
      -- (4192) propBag0.handler.graphName === propBag1.handler.graphName:
      -- both properties are undefined, so this branch always runs,
      -- overwriting the maySet values computed by checkField
      if propBag0.value ≠ propBag1.value then
        Except.error (JSError.error "bindValuesByHandlers requires two ObjectGraphHandlers from different graphs")
      else
        let maySet0 := false && maySet0
        let maySet1 := false && maySet1
        match Membrane.applyBagForBind proxyMap propBag0 maySet0 with
        | Except.error e => Except.error e
        | Except.ok _ =>
          match Membrane.applyBagForBind proxyMap propBag1 maySet1 with
          | Except.error e => Except.error e
          | Except.ok _ =>
            -- (4203-4222) postconditions
            if propBag0.vtype ≠ VType.primitive then
              match Membrane.bindPostcondition m propBag0.value propBag1.value with
              | Except.error e => Except.error e
              | Except.ok _ =>
                if propBag1.vtype ≠ VType.primitive then
                  match Membrane.bindPostcondition m propBag1.value propBag0.value with
                  | Except.error e => Except.error e
                  | Except.ok _ => Except.ok m
                else Except.ok m
            else if propBag1.vtype ≠ VType.primitive then
              match Membrane.bindPostcondition m propBag1.value propBag0.value with
              | Except.error e => Except.error e
              | Except.ok _ => Except.ok m
            else Except.ok m

/-- bindValuesByHandlers (lines 4106-4223).  Build both bags; swap when the
first value is primitive (throwing when both are); resolve the shared
proxyMap (the conflict branch of lines 4175-4180 compares references; it is
unreachable here because a surviving bag never carries a proxyMap — see
bagForBind); then hand over to bindRest.  No membrane or cylinder state is
modified on any path (the only mutation site, proxyMap.set, is a
TypeError). -/
def Membrane.bindValuesByHandlers (m : Membrane) (h0 : ObjectGraphHandler) (v0 : JSValue) (h1 : ObjectGraphHandler) (v1 : JSValue) : EM Membrane :=
  match m.bagForBind h0 v0 with
  | Except.error e => Except.error e
  | Except.ok bag0 =>
    match m.bagForBind h1 v1 with
    | Except.error e => Except.error e
    | Except.ok bag1 =>
      -- (4161-4173) proxyMap selection and the primitive swap
      if bag0.vtype = VType.primitive ∧ bag1.vtype = VType.primitive then
        Except.error (JSError.error "bindValuesByHandlers requires two non-primitive values")
      else
        let propBag0 := if bag0.vtype = VType.primitive then bag1 else bag0
        let propBag1 := if bag0.vtype = VType.primitive then bag0 else bag1
        let proxyMap0 : Option ProxyCylinder :=
          if bag0.vtype = VType.primitive then bag1.proxyMap else bag0.proxyMap
        -- (4175-4187) conflict check and cylinder creation
        match propBag0.proxyMap, propBag1.proxyMap with
        | some c0, some c1 =>
          if c0 ≠ c1 then
            Except.error (JSError.error "Linking two ObjectGraphHandlers in this way is not safe.")
          else
            Membrane.bindRest m propBag0 propBag1 c0
        | none, none =>
          Membrane.bindRest m propBag0 propBag1 (ProxyCylinder.new GraphKey.undef)
        | none, some c1 =>
          Membrane.bindRest m propBag0 propBag1 c1
        | some _, none =>
          match proxyMap0 with
          | some c => Membrane.bindRest m propBag0 propBag1 c
          | none => Except.error (JSError.typeError "proxyMap.hasGraph is not a function")


/- ------------------------------------------------------------------ -/
/- Helper lemmas                                                       -/
/- ------------------------------------------------------------------ -/

theorem assocFind_assocSet {κ α : Type} [DecidableEq κ] (l : List (κ × α)) (k : κ) (v : α) :
    assocFind (assocSet l k v) k = some v := by
  induction l with
  | nil => simp [assocFind, assocSet]
  | cons hd tl ih =>
    by_cases h : hd.1 = k
    · simp [assocFind, assocSet, h]
    · simpa [assocFind, assocSet, h] using ih

theorem getLocalFlag_undef_isError (c : ProxyCylinder) (f : String) :
    ∃ e, c.getLocalFlag GraphKey.undef f = Except.error e :=
  ⟨JSError.error "graphName is neither a symbol nor a string!", rfl⟩

/-- Every path through validateTrapAndShadowTarget throws: no cylinder, a
dead map entry, a wrong shadow target, a dead or unknown handler graph on the
cylinder, an enabled disableTrap flag — or, in the one remaining case, the
second disabled-trap lookup, which passes the cylinder's nonexistent
originField property (undefined) and trips getMetadata's type check. -/
theorem validateTrap_isError (h : ObjectGraphHandler) (skm : ShadowKeyMapT) (mMap : MMap)
    (trapName : String) (shadow : JSValue) :
    emIsError (h.validateTrapAndShadowTarget skm mMap trapName shadow) = true := by
  unfold ObjectGraphHandler.validateTrapAndShadowTarget
  dsimp only
  split
  · rename_i c heq
    split
    · rfl
    · have h2 : c.getLocalFlag c.originFieldProp ("disableTrap(" ++ trapName ++ ")")
          = Except.error (JSError.error "graphName is neither a symbol nor a string!") := rfl
      split
      · rfl
      · rfl
      · rw [h2]
        rfl
  · rfl

theorem getMetadata_update_self (c : ProxyCylinder) (g : GraphKey) (md md2 : GraphMetadata)
    (halive : c.getMetadata g = Except.ok md) :
    (c.updateMetadata g md2).getMetadata g = Except.ok md2 := by
  cases g with
  | undef => simp [ProxyCylinder.getMetadata] at halive
  | str s =>
    simp [ProxyCylinder.getMetadata, ProxyCylinder.updateMetadata, assocFind_assocSet]
  | sym i =>
    simp [ProxyCylinder.getMetadata, ProxyCylinder.updateMetadata, assocFind_assocSet]

/-- For every non-primitive argument, convertArgumentToProxy throws:
the target-graph lookup reads targetHandler.graphName (undefined), so either
the map entry is dead (TypeError on hasGraph), or getProxy(undefined) trips
the graph-name type check, or nothing is found and line 4052's unconditional
test (its third disjunct compares undefined with undefined) throws. -/
theorem convertArgumentToProxy_nonprim_err (m : Membrane) (h0 h1 : ObjectGraphHandler)
    (arg : JSValue) (hnp : valueType arg ≠ VType.primitive) :
    emIsError (m.convertArgumentToProxy h0 h1 arg) = true := by
  unfold Membrane.convertArgumentToProxy
  simp only [hnp, if_false]
  unfold Membrane.getMembraneProxy
  cases hm : mapGet m.mapEntries arg with
  | none => rfl
  | some v =>
    cases v with
    | dead => rfl
    | cyl c =>
      by_cases hg : c.hasGraph h1.graphNameProp
      · have h2 : c.getProxy h1.graphNameProp
            = Except.error (JSError.error "graphName is neither a symbol nor a string!") := rfl
        simp [hg, h2, emIsError]
      · simp [hg, emIsError]

/-- Claim C1: identity preservation of convertArgumentToProxy.  The claim
fails: for every membrane state, every pair of ObjectGraphHandlers and every
object or function value, convertArgumentToProxy throws, so no wrap ever
returns a proxy, let alone a stable one.  The root cause is that the
Membrane addresses handler.graphName (the class defines fieldName; line 4043
selects the key "graphName" for every refactor value), so the line-4052
guard's third disjunct compares undefined with undefined and always throws —
and independently, graph handlers cannot even be registered (see
getHandlerByName). -/
theorem convertArgumentToProxy_identity_claim_fails (m : Membrane)
    (h0 h1 : ObjectGraphHandler) (i : Nat) :
    emIsError (m.convertArgumentToProxy h0 h1 (JSValue.obj i)) = true ∧
    emIsError (m.convertArgumentToProxy h0 h1 (JSValue.fn i)) = true :=
  ⟨convertArgumentToProxy_nonprim_err m h0 h1 (JSValue.obj i) (by simp [valueType]),
   convertArgumentToProxy_nonprim_err m h0 h1 (JSValue.fn i) (by simp [valueType])⟩

/-- Claim C2: primitive transparency.  For every primitive value and any
pair of graph handlers, convertArgumentToProxy (lines 4039-4041) returns the
value itself and leaves the membrane — in particular its value map, so no
ProxyCylinder is created or stored — unchanged. -/
theorem convertArgumentToProxy_primitive_transparent (m : Membrane)
    (h0 h1 : ObjectGraphHandler) (v : JSValue)
    (hprim : valueType v = VType.primitive) :
    m.convertArgumentToProxy h0 h1 v = Except.ok (m, v) := by
  unfold Membrane.convertArgumentToProxy
  simp [hprim]

/-- Witness for C2 at the number 3 and two concrete handlers. -/
theorem convertArgumentToProxy_primitive_transparent_witness :
    valueType (JSValue.num (JSNumber.intVal 3)) = VType.primitive ∧
    Membrane.convertArgumentToProxy { } { id := 1, fieldName := GraphKey.str "wet" }
      { id := 2, fieldName := GraphKey.str "dry" } (JSValue.num (JSNumber.intVal 3))
      = Except.ok ({ }, JSValue.num (JSNumber.intVal 3)) :=
  ⟨rfl, convertArgumentToProxy_primitive_transparent { }
      { id := 1, fieldName := GraphKey.str "wet" }
      { id := 2, fieldName := GraphKey.str "dry" }
      (JSValue.num (JSNumber.intVal 3)) rfl⟩

/-- Claim C3: revocation totality.  After a successful revokeEverything, the
invocation of any of the 13 proxy traps fails.  Every ObjectGraphHandler
trap (ownKeys 1182, has 1209, get 1249, getOwnPropertyDescriptor 1387,
getPrototypeOf 1483, isExtensible 1546, preventExtensions 1571,
deleteProperty 1593, defineProperty 1690, set 1810, setPrototypeOf 2043,
apply 2087, construct 2200) begins with validateTrapAndShadowTarget, and
that validation throws on every input (see validateTrap_isError) —
so in particular on every proxy of a revoked graph.  The claim therefore
holds, though degenerately: the traps fail even before revocation. -/
theorem revokeEverything_all_traps_fail (g g' : ObjectGraphHandler)
    (hrev : g.revokeEverything = Except.ok g') (skm : ShadowKeyMapT) (mMap : MMap)
    (trapName : String) (shadow : JSValue) (htrap : trapName ∈ allTraps) :
    emIsError (g'.validateTrapAndShadowTarget skm mMap trapName shadow) = true :=
  validateTrap_isError g' skm mMap trapName shadow

/-- Witness for C3: a fresh "wet" handler is revoked successfully, "get" is
one of the 13 traps, and the trap entry validation then throws on a concrete
shadow target. -/
theorem revokeEverything_all_traps_fail_witness :
    ObjectGraphHandler.revokeEverything { id := 1, fieldName := GraphKey.str "wet" }
      = Except.ok { id := 1, fieldName := GraphKey.str "wet", isDead := true } ∧
    "get" ∈ allTraps ∧
    emIsError (ObjectGraphHandler.validateTrapAndShadowTarget
      { id := 1, fieldName := GraphKey.str "wet", isDead := true } [] [] "get" (JSValue.obj 3)) = true :=
  ⟨rfl, by decide,
   revokeEverything_all_traps_fail { id := 1, fieldName := GraphKey.str "wet" }
     { id := 1, fieldName := GraphKey.str "wet", isDead := true } rfl [] [] "get"
     (JSValue.obj 3) (by decide)⟩

/-- Claim C4: filter invisibility.  The claim fails: with or without an
own-keys filter installed, every invocation of the has,
getOwnPropertyDescriptor, ownKeys, defineProperty and deleteProperty traps
throws, because each begins with validateTrapAndShadowTarget, whose
disabled-trap check reads targetMap.originField — a property the refactored
ProxyCylinder does not define — and getMetadata(undefined) throws; the
filter consultations further down those traps (lines 1415, 1424, 1627, 1736)
read the same nonexistent property.  (Even the intended code returns false,
not true, from defineProperty for a filtered key, lines 1774-1777.) -/
theorem filtered_key_traps_throw (h : ObjectGraphHandler) (skm : ShadowKeyMapT)
    (mMap : MMap) (shadow : JSValue) :
    emIsError (h.validateTrapAndShadowTarget skm mMap "has" shadow) = true ∧
    emIsError (h.validateTrapAndShadowTarget skm mMap "getOwnPropertyDescriptor" shadow) = true ∧
    emIsError (h.validateTrapAndShadowTarget skm mMap "ownKeys" shadow) = true ∧
    emIsError (h.validateTrapAndShadowTarget skm mMap "defineProperty" shadow) = true ∧
    emIsError (h.validateTrapAndShadowTarget skm mMap "deleteProperty" shadow) = true :=
  ⟨validateTrap_isError h skm mMap "has" shadow,
   validateTrap_isError h skm mMap "getOwnPropertyDescriptor" shadow,
   validateTrap_isError h skm mMap "ownKeys" shadow,
   validateTrap_isError h skm mMap "defineProperty" shadow,
   validateTrap_isError h skm mMap "deleteProperty" shadow⟩

/-- Claim C5: argument truncation.  The claim fails: truncateArguments
throws on every input — its first step, map.getTruncateArgList(
map.originField), passes the cylinder's nonexistent originField property and
trips getMetadata's type check (and a missing or dead map entry is a
TypeError) — so no proxied call ever reaches the real function with a
truncated list; the spec's S5 scenario (pf(2, 40) returning NaN) throws
instead. -/
theorem truncateArguments_always_throws (h : ObjectGraphHandler) (mMap : MMap)
    (target : JSValue) (targetLength : Nat) (args : List JSValue) :
    emIsError (h.truncateArguments mMap target targetLength args) = true := by
  unfold ObjectGraphHandler.truncateArguments
  cases hm : mapGet mMap target with
  | none => rfl
  | some v =>
    cases v with
    | dead => rfl
    | cyl c =>
      have h2 : c.getTruncateArgList c.originFieldProp
          = Except.error (JSError.error "graphName is neither a symbol nor a string!") := rfl
      simp [h2, emIsError]

/-- Claim C7: getHandlerByName with mustCreate.  The claim fails: for every
unregistered string or symbol graph name, getHandlerByName(graph,
mustCreate: true) throws "field must be a string or a symbol!" instead of
creating and registering a handler, because the creation block's first
statement `let graph = null;` shadows the parameter and both graph
constructors receive null. -/
theorem getHandlerByName_mustCreate_throws (m : Membrane) (graph : JSValue)
    (habsent : m.hasHandlerByField graph = Except.ok false) :
    m.getHandlerByName graph (GHOptions.objOpt true)
      = Except.error (JSError.error "field must be a string or a symbol!") := by
  unfold Membrane.getHandlerByName
  simp [habsent]

/-- Witness for C7: a fresh membrane and the graph name "wet". -/
theorem getHandlerByName_mustCreate_throws_witness :
    Membrane.hasHandlerByField { } (JSValue.str "wet") = Except.ok false ∧
    Membrane.getHandlerByName { } (JSValue.str "wet") (GHOptions.objOpt true)
      = Except.error (JSError.error "field must be a string or a symbol!") :=
  ⟨rfl, getHandlerByName_mustCreate_throws { } (JSValue.str "wet") rfl⟩

/-- Claim C9, counterexample: the passThroughFilter accessor's once-only
guard compares the captured variable against the module-level returnFalse
function by identity, and a membrane constructed without a passThroughFilter
option hands returnFalse to callers as its own passThroughFilter property.
Assigning that sentinel is a successful assignment that leaves the slot
replaceable: two successful assignments in a row, with mayReplacePassThrough
still true after the first — contradicting "assigned at most once" and
"mayReplacePassThrough is true exactly until the first successful
assignment". -/
theorem passThroughFilter_sentinel_double_assign :
    setPassThroughFilter PassThroughSlot.init returnFalseFn = Except.ok ⟨returnFalseFn⟩ ∧
    setPassThroughFilter ⟨returnFalseFn⟩ (JSValue.fn 1) = Except.ok ⟨JSValue.fn 1⟩ ∧
    mayReplacePassThrough ⟨returnFalseFn⟩ = true := by
  refine ⟨rfl, rfl, rfl⟩

/-- Claim C9, amended: assigning a non-function value throws; while the
stored filter is not the returnFalse sentinel every assignment throws,
leaving the stored filter in place; a successful assignment requires the
sentinel state and a function value, stores that value, and leaves the slot
replaceable exactly when the assigned function is the sentinel itself;
mayReplacePassThrough reads whether the stored filter is still the
sentinel. -/
theorem passThroughFilter_amended :
    (∀ (s : PassThroughSlot) (v : JSValue), valueType v ≠ VType.function →
        emIsError (setPassThroughFilter s v) = true) ∧
    (∀ (s : PassThroughSlot) (v : JSValue), s.current ≠ returnFalseFn →
        setPassThroughFilter s v
          = Except.error (JSError.error "passThroughFilter has been defined once already!")) ∧
    (∀ (s : PassThroughSlot) (v : JSValue) (s' : PassThroughSlot),
        setPassThroughFilter s v = Except.ok s' →
        s.current = returnFalseFn ∧ valueType v = VType.function ∧ s'.current = v ∧
        (mayReplacePassThrough s' = true ↔ v = returnFalseFn)) := by
  refine ⟨?_, ?_, ?_⟩
  · intro s v hv
    unfold setPassThroughFilter
    by_cases hc : s.current = returnFalseFn
    · simp [hc, hv, emIsError]
    · simp [hc, emIsError]
  · intro s v hc
    unfold setPassThroughFilter
    simp [hc]
  · intro s v s' hset
    unfold setPassThroughFilter at hset
    by_cases hc : s.current = returnFalseFn
    · by_cases hv : valueType v = VType.function
      · simp only [hc, ne_eq, not_true_eq_false, if_false, hv, not_false_eq_true, if_neg,
          Except.ok.injEq] at hset
        refine ⟨hc, hv, ?_, ?_⟩
        · rw [← hset]
        · rw [← hset]
          unfold mayReplacePassThrough
          simp
      · simp [hc, hv] at hset
    · simp [hc] at hset

/-- Witness for the amended C9: assigning the function id 1 to a fresh slot
succeeds and the conclusions hold there. -/
theorem passThroughFilter_amended_witness :
    setPassThroughFilter PassThroughSlot.init (JSValue.fn 1) = Except.ok ⟨JSValue.fn 1⟩ ∧
    (PassThroughSlot.init.current = returnFalseFn ∧
     valueType (JSValue.fn 1) = VType.function ∧
     (⟨JSValue.fn 1⟩ : PassThroughSlot).current = JSValue.fn 1 ∧
     (mayReplacePassThrough ⟨JSValue.fn 1⟩ = true ↔ JSValue.fn 1 = returnFalseFn)) :=
  ⟨rfl, passThroughFilter_amended.2.2 PassThroughSlot.init (JSValue.fn 1) ⟨JSValue.fn 1⟩ rfl⟩

/-- Claim C10: for a live graph g and a boolean count b, setTruncateArgList
deletes the stored limit (the count fails the number type check), a
subsequent getTruncateArgList returns false, and whatever count is passed,
the slot afterwards holds either nothing or a non-negative (finite) integer
— so a stored limit of true never persists on the cylinder. -/
theorem setTruncateArgList_boolean_clears (c : ProxyCylinder) (g : GraphKey) (b : Bool)
    (md : GraphMetadata) (halive : c.getMetadata g = Except.ok md) :
    c.setTruncateArgList g (JSValue.bool b)
      = Except.ok (c.updateMetadata g { md with truncateArgList? := none }) ∧
    (c.updateMetadata g { md with truncateArgList? := none }).getTruncateArgList g
      = Except.ok (JSValue.bool false) ∧
    (∀ (v : JSValue) (c' : ProxyCylinder), c.setTruncateArgList g v = Except.ok c' →
      ∀ (md' : GraphMetadata), c'.getMetadata g = Except.ok md' →
        md'.truncateArgList? = none ∨
        ∃ n : Int, 0 ≤ n ∧ md'.truncateArgList? = some (JSValue.num (JSNumber.intVal n))) := by
  refine ⟨?_, ?_, ?_⟩
  · unfold ProxyCylinder.setTruncateArgList
    rw [halive]
    rfl
  · unfold ProxyCylinder.getTruncateArgList
    rw [getMetadata_update_self c g md { md with truncateArgList? := none } halive]
  · intro v c' hset md' hmd'
    unfold ProxyCylinder.setTruncateArgList at hset
    rw [halive] at hset
    dsimp only at hset
    split at hset
    · rename_i hcond
      -- the count passed the number checks: it is a non-negative integral number
      injection hset with hset'
      rw [← hset'] at hmd'
      rw [getMetadata_update_self c g md _ halive] at hmd'
      injection hmd' with hmd''
      cases v with
      | num n =>
        cases n with
        | intVal k =>
          right
          refine ⟨k, ?_, ?_⟩
          · have hge : numGE0 (JSNumber.intVal k) = true := by
              have := hcond
              simp only [Bool.and_eq_true] at this
              exact this.1.1
            simpa [numGE0] using hge
          · rw [← hmd'']
        | nan => simp [numGE0, parseIntEqSelf, jsIsFinite] at hcond
        | posInf => simp [numGE0, parseIntEqSelf, jsIsFinite] at hcond
        | negInf => simp [numGE0, parseIntEqSelf, jsIsFinite] at hcond
        | nonIntFinite neg => simp [numGE0, parseIntEqSelf, jsIsFinite] at hcond
      | undefined => simp at hcond
      | null => simp at hcond
      | bool bb => simp at hcond
      | str s => simp at hcond
      | sym i => simp at hcond
      | obj i => simp at hcond
      | fn i => simp at hcond
    · injection hset with hset'
      rw [← hset'] at hmd'
      rw [getMetadata_update_self c g md _ halive] at hmd'
      injection hmd' with hmd''
      left
      rw [← hmd'']

/-- Witness for C10 on a concrete live cylinder and b = true. -/
theorem setTruncateArgList_boolean_clears_witness :
    ProxyCylinder.getMetadata
      ⟨GraphKey.str "wet", [(GraphKey.str "wet", MetaEntry.live { })], true, [], []⟩
      (GraphKey.str "wet") = Except.ok { } ∧
    (ProxyCylinder.setTruncateArgList
        ⟨GraphKey.str "wet", [(GraphKey.str "wet", MetaEntry.live { })], true, [], []⟩
        (GraphKey.str "wet") (JSValue.bool true)
      = Except.ok (ProxyCylinder.updateMetadata
          ⟨GraphKey.str "wet", [(GraphKey.str "wet", MetaEntry.live { })], true, [], []⟩
          (GraphKey.str "wet") { truncateArgList? := none }) ∧
     (ProxyCylinder.updateMetadata
          ⟨GraphKey.str "wet", [(GraphKey.str "wet", MetaEntry.live { })], true, [], []⟩
          (GraphKey.str "wet") { truncateArgList? := none }).getTruncateArgList
        (GraphKey.str "wet") = Except.ok (JSValue.bool false) ∧
     (∀ (v : JSValue) (c' : ProxyCylinder),
        ProxyCylinder.setTruncateArgList
          ⟨GraphKey.str "wet", [(GraphKey.str "wet", MetaEntry.live { })], true, [], []⟩
          (GraphKey.str "wet") v = Except.ok c' →
        ∀ (md' : GraphMetadata), c'.getMetadata (GraphKey.str "wet") = Except.ok md' →
          md'.truncateArgList? = none ∨
          ∃ n : Int, 0 ≤ n ∧ md'.truncateArgList? = some (JSValue.num (JSNumber.intVal n)))) :=
  ⟨rfl, setTruncateArgList_boolean_clears
      ⟨GraphKey.str "wet", [(GraphKey.str "wet", MetaEntry.live { })], true, [], []⟩
      (GraphKey.str "wet") true { } rfl⟩

/-- Claim C8, counterexample: a cylinder is given its origin entry through
setMetadata (as buildMapping intends), and getShadowTarget on the origin
graph then succeeds with undefined instead of failing: the origin metadata
simply has no shadowTarget slot. -/
theorem getShadowTarget_origin_does_not_fail :
    ProxyCylinder.setMetadata (ProxyCylinder.new (GraphKey.str "wet")) []
      (GraphKey.str "wet") { value? := some (JSValue.obj 2) }
      = Except.ok
          (⟨GraphKey.str "wet",
            [(GraphKey.str "wet", MetaEntry.live { value? := some (JSValue.obj 2) })],
            true, [], []⟩,
           [(JSValue.obj 2,
             MapVal.cyl ⟨GraphKey.str "wet",
               [(GraphKey.str "wet", MetaEntry.live { value? := some (JSValue.obj 2) })],
               true, [], []⟩)]) ∧
    ProxyCylinder.getShadowTarget
      ⟨GraphKey.str "wet",
       [(GraphKey.str "wet", MetaEntry.live { value? := some (JSValue.obj 2) })],
       true, [], []⟩ (GraphKey.str "wet") = Except.ok JSValue.undefined := by
  refine ⟨rfl, rfl⟩

theorem getShadowTarget_of_find (c0 : ProxyCylinder) (g : GraphKey) (md : GraphMetadata)
    (hg : g ≠ GraphKey.undef)
    (hfind : assocFind c0.proxyDataByGraph g = some (MetaEntry.live md)) :
    c0.getShadowTarget g = Except.ok (md.shadowTarget?.getD JSValue.undefined) := by
  unfold ProxyCylinder.getShadowTarget ProxyCylinder.getMetadata
  cases g with
  | undef => exact absurd rfl hg
  | str s => simp [hfind]
  | sym i => simp [hfind]

theorem setMetadataOriginBranch_shadow (c c' : ProxyCylinder) (mMap m' : MMap) (g : GraphKey)
    (md : GraphMetadata) (hg : g ≠ GraphKey.undef)
    (hset : c.setMetadataOriginBranch mMap g md = Except.ok (c', m')) :
    c'.getShadowTarget g = Except.ok (md.shadowTarget?.getD JSValue.undefined) ∧
    truthy (md.shadowTarget?.getD JSValue.undefined) = false := by
  unfold ProxyCylinder.setMetadataOriginBranch at hset
  split at hset
  · exact Except.noConfusion hset
  · split at hset
    · exact Except.noConfusion hset
    · split at hset
      · exact Except.noConfusion hset
      · split at hset
        · exact Except.noConfusion hset
        · rename_i hsh
          have htr : truthy (md.shadowTarget?.getD JSValue.undefined) = false := by
            cases htr2 : truthy (md.shadowTarget?.getD JSValue.undefined) with
            | false => rfl
            | true => exact absurd htr2 hsh
          split at hset
          · exact Except.noConfusion hset
          · rename_i c1 heqI
            unfold ProxyCylinder.setMetadataInternal at heqI
            split at heqI
            · exact Except.noConfusion heqI
            · injection heqI with heqI1
              have hpd : c1.proxyDataByGraph
                  = assocSet c.proxyDataByGraph g (MetaEntry.live md) := by
                rw [← heqI1]
              refine ⟨?_, htr⟩
              have hsame : (if (!c1.originalValueSet) = true then
                  { c1 with originalValueSet := true } else c1).proxyDataByGraph
                  = c1.proxyDataByGraph := by
                split <;> rfl
              dsimp only at hset
              split at hset
              · split at hset
                · exact Except.noConfusion hset
                · injection hset with hset1
                  injection hset1 with hc' hm'
                  refine getShadowTarget_of_find c' g md hg ?_
                  rw [← hc', hsame, hpd]
                  exact assocFind_assocSet _ _ _
              · injection hset with hset1
                injection hset1 with hc' hm'
                refine getShadowTarget_of_find c' g md hg ?_
                rw [← hc', hsame, hpd]
                exact assocFind_assocSet _ _ _

theorem setMetadata_origin_shadow (c c' : ProxyCylinder) (mMap m' : MMap) (g : GraphKey)
    (md : GraphMetadata) (heq : g = c.originGraph)
    (hset : c.setMetadata mMap g md = Except.ok (c', m')) :
    c'.getShadowTarget g = Except.ok (md.shadowTarget?.getD JSValue.undefined) ∧
    truthy (md.shadowTarget?.getD JSValue.undefined) = false := by
  unfold ProxyCylinder.setMetadata at hset
  dsimp only at hset
  split at hset
  · exact Except.noConfusion hset
  · split at hset
    · exact Except.noConfusion hset
    · cases g with
      | undef => exact Except.noConfusion hset
      | str s =>
        rw [← heq] at hset
        split at hset
        · exact Except.noConfusion hset
        · split at hset
          · exact Except.noConfusion hset
          · split at hset
            · rename_i hF
              exact absurd rfl hF
            · exact setMetadataOriginBranch_shadow c c' mMap m' (GraphKey.str s) md
                (by simp) hset
      | sym i =>
        rw [← heq] at hset
        split at hset
        · exact Except.noConfusion hset
        · split at hset
          · exact Except.noConfusion hset
          · split at hset
            · rename_i hF
              exact absurd rfl hF
            · exact setMetadataOriginBranch_shadow c c' mMap m' (GraphKey.sym i) md
                (by simp) hset

/-- Claim C8, amended: getShadowTarget returns the shadowTarget slot of the
graph's live metadata (the stored shadow for a foreign graph, an absent slot
reading as undefined) and fails exactly when getMetadata fails — on unknown,
dead, or undefined graph names.  On the cylinder's origin graph it does NOT
fail: setMetadata forbids a (truthy) shadowTarget in origin metadata, so the
call returns that falsy slot — undefined in every membrane-built cylinder —
instead of throwing. -/
theorem getShadowTarget_contract :
    (∀ (c : ProxyCylinder) (g : GraphKey) (md : GraphMetadata),
        c.getMetadata g = Except.ok md →
        c.getShadowTarget g = Except.ok (md.shadowTarget?.getD JSValue.undefined)) ∧
    (∀ (c : ProxyCylinder) (g : GraphKey) (e : JSError),
        c.getMetadata g = Except.error e → c.getShadowTarget g = Except.error e) ∧
    (∀ (c c' : ProxyCylinder) (mMap m' : MMap) (g : GraphKey) (md : GraphMetadata),
        g = c.originGraph → c.setMetadata mMap g md = Except.ok (c', m') →
        c'.getShadowTarget g = Except.ok (md.shadowTarget?.getD JSValue.undefined) ∧
        truthy (md.shadowTarget?.getD JSValue.undefined) = false) := by
  refine ⟨?_, ?_, ?_⟩
  · intro c g md h
    unfold ProxyCylinder.getShadowTarget
    rw [h]
  · intro c g e h
    unfold ProxyCylinder.getShadowTarget
    rw [h]
  · intro c c' mMap m' g md heq hset
    exact setMetadata_origin_shadow c c' mMap m' g md heq hset

/-- Witness for the amended C8 on the concrete origin-only cylinder. -/
theorem getShadowTarget_contract_witness :
    GraphKey.str "wet" = (ProxyCylinder.new (GraphKey.str "wet")).originGraph ∧
    ProxyCylinder.setMetadata (ProxyCylinder.new (GraphKey.str "wet")) []
      (GraphKey.str "wet") { value? := some (JSValue.obj 2) }
      = Except.ok
          (⟨GraphKey.str "wet",
            [(GraphKey.str "wet", MetaEntry.live { value? := some (JSValue.obj 2) })],
            true, [], []⟩,
           [(JSValue.obj 2,
             MapVal.cyl ⟨GraphKey.str "wet",
               [(GraphKey.str "wet", MetaEntry.live { value? := some (JSValue.obj 2) })],
               true, [], []⟩)]) ∧
    (ProxyCylinder.getShadowTarget
        ⟨GraphKey.str "wet",
         [(GraphKey.str "wet", MetaEntry.live { value? := some (JSValue.obj 2) })],
         true, [], []⟩ (GraphKey.str "wet")
        = Except.ok ((({ value? := some (JSValue.obj 2) } : GraphMetadata).shadowTarget?).getD JSValue.undefined) ∧
     truthy ((({ value? := some (JSValue.obj 2) } : GraphMetadata).shadowTarget?).getD JSValue.undefined) = false) :=
  ⟨rfl, rfl,
   getShadowTarget_contract.2.2 (ProxyCylinder.new (GraphKey.str "wet"))
     ⟨GraphKey.str "wet",
      [(GraphKey.str "wet", MetaEntry.live { value? := some (JSValue.obj 2) })],
      true, [], []⟩ []
     [(JSValue.obj 2,
       MapVal.cyl ⟨GraphKey.str "wet",
         [(GraphKey.str "wet", MetaEntry.live { value? := some (JSValue.obj 2) })],
         true, [], []⟩)]
     (GraphKey.str "wet") { value? := some (JSValue.obj 2) } rfl rfl⟩

/-- A bag that bagForBind builds successfully never carries a proxyMap: the
cylinder paths of the bag helper all throw (the hasGraph check runs against
the undefined graphName, and getProxy(undefined) trips the type check). -/
theorem bagForBind_ok (m : Membrane) (h : ObjectGraphHandler) (v : JSValue) (b : PropBag)
    (hb : m.bagForBind h v = Except.ok b) :
    b.value = v ∧ b.vtype = valueType v ∧ b.proxyMap = none ∧
    (valueType v ≠ VType.primitive → mapGet m.mapEntries v = none) := by
  unfold Membrane.bagForBind at hb
  split at hb
  · exact Except.noConfusion hb
  · split at hb
    · rename_i hprim
      injection hb with hb1
      rw [← hb1]
      exact ⟨rfl, rfl, rfl, fun hc => absurd hprim hc⟩
    · rename_i hprim
      split at hb
      · rename_i hmg
        injection hb with hb1
        rw [← hb1]
        exact ⟨rfl, rfl, rfl, fun _ => hmg⟩
      · exact Except.noConfusion hb
      · rename_i c hmg
        split at hb
        · split at hb
          · exact Except.noConfusion hb
          · rename_i p hp
            have : c.getProxy GraphKey.undef
                = Except.error (JSError.error "graphName is neither a symbol nor a string!") := rfl
            rw [this] at hp
            exact Except.noConfusion hp
        · exact Except.noConfusion hb

/-- bindRest on a fresh cylinder throws: checkField passes trivially, the
always-taken equal-graph-names branch either rejects differing values or
zeroes both maySet flags, and the first postcondition assert fails because
the (unchanged) membrane map holds no entry for the non-primitive value. -/
theorem bindRest_err (m : Membrane) (pb0 pb1 : PropBag)
    (hnp : pb0.vtype ≠ VType.primitive) (hmg : mapGet m.mapEntries pb0.value = none) :
    emIsError (Membrane.bindRest m pb0 pb1 (ProxyCylinder.new GraphKey.undef)) = true := by
  unfold Membrane.bindRest
  have hcf0 : Membrane.checkFieldForBind (ProxyCylinder.new GraphKey.undef) pb0
      = Except.ok true := rfl
  have hcf1 : Membrane.checkFieldForBind (ProxyCylinder.new GraphKey.undef) pb1
      = Except.ok true := rfl
  rw [hcf0, hcf1]
  by_cases hv : pb0.value = pb1.value
  · simp only [hv, ne_eq, not_true_eq_false, if_false]
    have happ0 : Membrane.applyBagForBind (ProxyCylinder.new GraphKey.undef) pb0 (false && true)
        = Except.ok () := rfl
    have happ1 : Membrane.applyBagForBind (ProxyCylinder.new GraphKey.undef) pb1 (false && true)
        = Except.ok () := rfl
    rw [happ0, happ1]
    have hpost2 : Membrane.bindPostcondition m pb1.value pb1.value
        = Except.error (JSError.error "Assertion failure: value0 mapping not found?") := by
      unfold Membrane.bindPostcondition Membrane.getMembraneProxy
      rw [← hv, hmg]
      rfl
    simp only [hnp, ne_eq, not_false_eq_true, if_true, hpost2]
    rfl
  · simp only [hv, ne_eq, not_false_eq_true, if_true]
    rfl

/-- Claim C6: bindValuesByHandlers.  The claim's positive half fails: for
every membrane state, every pair of ObjectGraphHandlers and every pair of
values, the call throws.  Either a bag check throws (ownsHandler is false
for every ObjectGraphHandler, whose graphName property is undefined; a value
with an existing cylinder fails the bag validity check against the undefined
graph), or both values are primitive, or line 4192's always-true
equal-graph-names comparison (undefined === undefined) rejects distinct
values, or — when the same non-primitive value is passed on both sides — the
postcondition assert "value0 mapping not found?" fires.  No state is ever
modified (the one mutation site, proxyMap.set, does not exist on the
refactored ProxyCylinder).  So no pair of values can ever be bound. -/
theorem bindValuesByHandlers_always_throws (m : Membrane) (h0 : ObjectGraphHandler)
    (v0 : JSValue) (h1 : ObjectGraphHandler) (v1 : JSValue) :
    emIsError (m.bindValuesByHandlers h0 v0 h1 v1) = true := by
  unfold Membrane.bindValuesByHandlers
  cases hb0 : m.bagForBind h0 v0 with
  | error e => rfl
  | ok b0 =>
    cases hb1 : m.bagForBind h1 v1 with
    | error e => rfl
    | ok b1 =>
      obtain ⟨hval0, hty0, hpm0, hmap0⟩ := bagForBind_ok m h0 v0 b0 hb0
      obtain ⟨hval1, hty1, hpm1, hmap1⟩ := bagForBind_ok m h1 v1 b1 hb1
      dsimp only
      by_cases hbp : b0.vtype = VType.primitive ∧ b1.vtype = VType.primitive
      · rw [if_pos hbp]
        rfl
      · rw [if_neg hbp]
        by_cases hb0p : b0.vtype = VType.primitive
        · have hb1p : b1.vtype ≠ VType.primitive := fun hc => hbp ⟨hb0p, hc⟩
          simp only [hb0p, if_true, hpm0, hpm1]
          refine bindRest_err m b1 b0 hb1p ?_
          rw [hval1]
          exact hmap1 (hty1 ▸ hb1p)
        · simp only [hb0p, if_false, hpm0, hpm1]
          refine bindRest_err m b0 b1 hb0p ?_
          rw [hval0]
          exact hmap0 (hty0 ▸ hb0p)
